import Mathlib

/-
A shallow embedding of the LSPS2 server-side JIT-channel service
(src/lsps2/service.rs) together with the pieces of the crate it uses that
are referenced from that file.  Machine integers are modelled as `Nat`;
`u64` wrap-around is made explicit with `% u64Limit` exactly where the Rust
code can overflow.  Fallible Rust functions returning `Result` are embedded
with `Except`.
-/

namespace LSPS2

/-- 2^64, the modulus of Rust `u64` arithmetic. -/
def u64Limit : Nat := 2 ^ 64

/-- `InterceptId` is an opaque 32-byte token; only equality matters here. -/
abbrev InterceptId := Nat

abbrev PaymentHash := Nat

abbrev PublicKey := Nat

abbrev RequestId := Nat

abbrev ChannelId := Nat

/-- `InterceptedHTLC` from src/lsps2/payment_queue.rs as used by service.rs. -/
structure InterceptedHTLC where
  intercept_id : InterceptId
  expected_outbound_amount_msat : Nat
  payment_hash : PaymentHash
deriving DecidableEq

/-- The fields of `OpeningFeeParams` (src/lsps2/msgs.rs) that service.rs
reads.  The promise and the timestamp fields are consumed only by
`is_valid_opening_fee_params`, which is abstracted as a Boolean oracle
below, so they are not carried here. -/
structure OpeningFeeParams where
  min_fee_msat : Nat
  proportional : Nat
  min_payment_size_msat : Nat
  max_payment_size_msat : Nat
deriving DecidableEq

/-- Modelled from the spec: `compute_opening_fee` (src/lsps2/utils.rs is not
among the provided sources).  Per spec §4.4: the numerator
`payment_size × proportional + 999_999` is computed in wide arithmetic, the
proportional fee is its floor division by 1_000_000, the fee is the max
with the floor `min_fee_msat`, and the function fails (returns `none`)
exactly when the numerator overflows `u64` (the final fee then cannot
overflow, being at most `max min_fee_msat (numerator / 1000000)` with both
arguments below 2^64). -/
def compute_opening_fee (payment_size_msat min_fee_msat proportional : Nat) :
    Option Nat :=
  let numerator := payment_size_msat * proportional + 999999
  if numerator < u64Limit then
    some (max min_fee_msat (numerator / 1000000))
  else
    none

/-- Modelled from the spec: the grouped payment queue
(src/lsps2/payment_queue.rs is not among the provided sources).  Per spec
§3/§4.3 it is an ordered sequence of `(payment_hash, [HTLC])` groups, one
group per distinct payment hash, groups and HTLCs within a group in
insertion order. -/
structure PaymentQueue where
  payments : List (PaymentHash × List InterceptedHTLC)
deriving DecidableEq

/-- Sum of the outbound amounts of one `(hash, htlcs)` group. -/
def groupSum (p : PaymentHash × List InterceptedHTLC) : Nat :=
  (p.2.map (fun h => h.expected_outbound_amount_msat)).sum

/-- Append an HTLC to the group with its payment hash, or start a new group
at the tail (spec §4.3, `add_htlc`). -/
def addToGroups (hash : PaymentHash) (htlc : InterceptedHTLC) :
    List (PaymentHash × List InterceptedHTLC) →
    List (PaymentHash × List InterceptedHTLC)
  | [] => [(hash, [htlc])]
  | (h, g) :: rest =>
    if h = hash then (h, g ++ [htlc]) :: rest
    else (h, g) :: addToGroups hash htlc rest

def PaymentQueue.total_msat (q : PaymentQueue) : Nat :=
  (q.payments.map groupSum).sum

def PaymentQueue.htlc_count (q : PaymentQueue) : Nat :=
  (q.payments.map (fun p => p.2.length)).sum

/-- All HTLCs of the queue, groups in order, HTLCs within a group in order. -/
def PaymentQueue.allHtlcs (q : PaymentQueue) : List InterceptedHTLC :=
  q.payments.flatMap (fun p => p.2)

/-- Modelled from the spec: `PaymentQueue::add_htlc` returns the total msat
across all groups and the total HTLC count after insertion (spec §4.3). -/
def PaymentQueue.add_htlc (q : PaymentQueue) (htlc : InterceptedHTLC) :
    (Nat × Nat) × PaymentQueue :=
  let q' : PaymentQueue := ⟨addToGroups htlc.payment_hash htlc q.payments⟩
  ((q'.total_msat, q'.htlc_count), q')

/-- Find, remove and return the first group (in insertion order) whose
summed amount strictly exceeds the threshold (spec §4.3). -/
def popGroups (threshold : Nat) :
    List (PaymentHash × List InterceptedHTLC) →
    Option ((PaymentHash × List InterceptedHTLC) ×
            List (PaymentHash × List InterceptedHTLC))
  | [] => none
  | (h, g) :: rest =>
    if threshold < groupSum (h, g) then some ((h, g), rest)
    else
      match popGroups threshold rest with
      | some (pg, rest') => some (pg, (h, g) :: rest')
      | none => none

/-- Modelled from the spec: `PaymentQueue::pop_greater_than_msat`.  Returns
the popped group (if any) together with the queue as left behind. -/
def PaymentQueue.pop_greater_than_msat (q : PaymentQueue) (threshold : Nat) :
    Option (PaymentHash × List InterceptedHTLC) × PaymentQueue :=
  match popGroups threshold q.payments with
  | some (pg, rest) => (some pg, ⟨rest⟩)
  | none => (none, q)

/-- Modelled from the spec: `PaymentQueue::clear` removes and returns every
remaining HTLC in insertion order (spec §4.3). -/
def PaymentQueue.clear (q : PaymentQueue) : List InterceptedHTLC × PaymentQueue :=
  (q.allHtlcs, ⟨[]⟩)

/-- `calculate_amount_to_forward_per_htlc` (service.rs): the per-HTLC loop.
`fee_remaining` is threaded through; the rounding residual is added to the
final HTLC's fee share.  The `% u64Limit` on the proportional share models
the `as u64` cast of the `u128` intermediate; Nat subtraction models
`saturating_sub` (and `fee_remaining - actual` never underflows since
`actual ≤ fee_remaining`). -/
def applyFees (total_fee_msat total_expected_outbound_msat : Nat) :
    Nat → List InterceptedHTLC → List (InterceptId × Nat)
  | _, [] => []
  | fee_remaining_msat, htlc :: rest =>
    let proportional_fee_amt_msat :=
      (total_fee_msat * htlc.expected_outbound_amount_msat /
        total_expected_outbound_msat) % u64Limit
    let a0 := min fee_remaining_msat proportional_fee_amt_msat
    let actual_fee_amt_msat := min a0 htlc.expected_outbound_amount_msat
    let fee_remaining_msat' := fee_remaining_msat - actual_fee_amt_msat
    let final_fee :=
      if rest.isEmpty then actual_fee_amt_msat + fee_remaining_msat'
      else actual_fee_amt_msat
    (htlc.intercept_id, htlc.expected_outbound_amount_msat - final_fee) ::
      applyFees total_fee_msat total_expected_outbound_msat fee_remaining_msat' rest

/-- `calculate_amount_to_forward_per_htlc` (service.rs).  The `u64` sum of
the outbound amounts wraps (release-mode semantics of the `debug_assert`d
code path), hence the `% u64Limit`.  In Rust the `u128` division would
panic when the total is zero while HTLCs remain; that point is reachable
only with a zero fee and all-zero amounts and is not relied on below. -/
def calculate_amount_to_forward_per_htlc (htlcs : List InterceptedHTLC)
    (total_fee_msat : Nat) : List (InterceptId × Nat) :=
  let total_expected_outbound_msat :=
    ((htlcs.map (fun h => h.expected_outbound_amount_msat)).sum) % u64Limit
  if total_expected_outbound_msat < total_fee_msat then []
  else applyFees total_fee_msat total_expected_outbound_msat total_fee_msat htlcs

/-- The different error strings of service.rs, as an enumeration (the
formatted messages carry no information the constructor does not). -/
inductive ChannelStateError where
  | multipleHtlcsInNoMppMode
  | paymentSizeViolatesLimits
  | couldNotComputeOpeningFee
  | htlcTooSmallToPayFee
  | wrongStateHtlcIntercepted
  | noForwardablePayment
  | wrongStateChannelReady
  | wrongStatePaymentForwarded
deriving DecidableEq

/-- `OpenChannelParams` (service.rs). -/
structure OpenChannelParams where
  opening_fee_msat : Nat
  amt_to_forward_msat : Nat
deriving DecidableEq

/-- `FeePayment` (service.rs). -/
structure FeePayment where
  htlcs : List InterceptedHTLC
  opening_fee_msat : Nat
deriving DecidableEq

/-- `OutboundJITChannelState` (service.rs).  In Rust every non-terminal
state holds an `Arc<Mutex<PaymentQueue>>` shared across transitions; here
the queue is carried by value and the sharing is made explicit in the
operations' return types. -/
inductive OutboundJITChannelState where
  | pendingInitialPayment (payment_queue : PaymentQueue)
  | pendingChannelOpen (payment_queue : PaymentQueue) (opening_fee_msat : Nat)
  | pendingPaymentForward (payment_queue : PaymentQueue) (opening_fee_msat : Nat)
  | paymentForwarded
deriving DecidableEq

instance {ε α : Type} [DecidableEq ε] [DecidableEq α] : DecidableEq (Except ε α) := fun a b =>
  match a, b with
  | .ok x, .ok y =>
    if h : x = y then isTrue (by rw [h]) else isFalse (fun hc => by cases hc; exact h rfl)
  | .error x, .error y =>
    if h : x = y then isTrue (by rw [h]) else isFalse (fun hc => by cases hc; exact h rfl)
  | .ok _, .error _ => isFalse (fun hc => by cases hc)
  | .error _, .ok _ => isFalse (fun hc => by cases hc)

def OutboundJITChannelState.new : OutboundJITChannelState :=
  .pendingInitialPayment ⟨[]⟩

/-- The validation and decision code of
`OutboundJITChannelState::htlc_intercepted` (service.rs lines 117-166)
that runs after `(expected_payment_size_msat, mpp_mode)` has been
determined: bounds check, opening-fee computation, and the decision to
open the channel, keep accumulating, or reject. -/
def interceptDecide (opening_fee_params : OpeningFeeParams)
    (total_expected_outbound_amount_msat : Nat) (queue' : PaymentQueue)
    (expected_payment_size_msat : Nat) (mpp_mode : Bool) :
    Except ChannelStateError (OutboundJITChannelState × Option OpenChannelParams) :=
  if expected_payment_size_msat < opening_fee_params.min_payment_size_msat
      ∨ expected_payment_size_msat > opening_fee_params.max_payment_size_msat then
    Except.error ChannelStateError.paymentSizeViolatesLimits
  else
    match compute_opening_fee expected_payment_size_msat
        opening_fee_params.min_fee_msat opening_fee_params.proportional with
    | none => Except.error ChannelStateError.couldNotComputeOpeningFee
    | some opening_fee_msat =>
      let amt_to_forward_msat := expected_payment_size_msat - opening_fee_msat
      if total_expected_outbound_amount_msat ≥ expected_payment_size_msat
          ∧ amt_to_forward_msat > 0 then
        Except.ok
          (OutboundJITChannelState.pendingChannelOpen queue' opening_fee_msat,
           some ⟨opening_fee_msat, amt_to_forward_msat⟩)
      else if mpp_mode then
        Except.ok (OutboundJITChannelState.pendingInitialPayment queue', none)
      else
        Except.error ChannelStateError.htlcTooSmallToPayFee

/-- The `(expected_payment_size_msat, mpp_mode)` determination of
`OutboundJITChannelState::htlc_intercepted` (service.rs lines 104-115): a
fixed payment size means MPP mode; otherwise exactly one HTLC is permitted
and the running total is the expected size. -/
def interceptOutcome (opening_fee_params : OpeningFeeParams)
    (payment_size_msat : Option Nat) (total_expected_outbound_amount_msat : Nat)
    (num_htlcs : Nat) (queue' : PaymentQueue) :
    Except ChannelStateError (OutboundJITChannelState × Option OpenChannelParams) :=
  match payment_size_msat with
  | some payment_size =>
    interceptDecide opening_fee_params total_expected_outbound_amount_msat queue'
      payment_size true
  | none =>
    if num_htlcs ≠ 1 then
      Except.error ChannelStateError.multipleHtlcsInNoMppMode
    else
      interceptDecide opening_fee_params total_expected_outbound_amount_msat queue'
        total_expected_outbound_amount_msat false

/-- `OutboundJITChannelState::htlc_intercepted` (service.rs lines 95-173).
The first component of the result is the state as left behind in `self`:
the Rust function takes `&mut self` and, before any validation, pushes the
HTLC into the queue shared through the `Arc`, so on the error paths of the
`PendingInitialPayment` arm `self` still holds `PendingInitialPayment` but
over the already-extended queue.  The second component is the function's
`Result` value. -/
def OutboundJITChannelState.htlc_intercepted (st : OutboundJITChannelState)
    (opening_fee_params : OpeningFeeParams) (payment_size_msat : Option Nat)
    (htlc : InterceptedHTLC) :
    OutboundJITChannelState ×
      Except ChannelStateError (OutboundJITChannelState × Option OpenChannelParams) :=
  match st with
  | .pendingInitialPayment payment_queue =>
    let added := payment_queue.add_htlc htlc
    (OutboundJITChannelState.pendingInitialPayment added.2,
     interceptOutcome opening_fee_params payment_size_msat added.1.1 added.1.2 added.2)
  | other => (other, Except.error ChannelStateError.wrongStateHtlcIntercepted)

/-- `OutboundJITChannelState::channel_ready` (service.rs lines 175-200).
Popping mutates the shared queue only on success, so the plain `Result`
shape suffices. -/
def OutboundJITChannelState.channel_ready (st : OutboundJITChannelState) :
    Except ChannelStateError (OutboundJITChannelState × FeePayment) :=
  match st with
  | .pendingChannelOpen payment_queue opening_fee_msat =>
    match payment_queue.pop_greater_than_msat opening_fee_msat with
    | (some (_payment_hash, htlcs), queue') =>
      Except.ok
        (OutboundJITChannelState.pendingPaymentForward queue' opening_fee_msat,
         ⟨htlcs, opening_fee_msat⟩)
    | (none, _) => Except.error ChannelStateError.noForwardablePayment
  | _ => Except.error ChannelStateError.wrongStateChannelReady

/-- `OutboundJITChannelState::payment_forwarded` (service.rs lines 202-213). -/
def OutboundJITChannelState.payment_forwarded (st : OutboundJITChannelState) :
    Except ChannelStateError (OutboundJITChannelState × List InterceptedHTLC) :=
  match st with
  | .pendingPaymentForward payment_queue _ =>
    Except.ok (OutboundJITChannelState.paymentForwarded, payment_queue.clear.1)
  | _ => Except.error ChannelStateError.wrongStatePaymentForwarded

/-- Whether a state is the `PendingChannelOpen` variant. -/
def OutboundJITChannelState.isPendingChannelOpen : OutboundJITChannelState → Bool
  | .pendingChannelOpen _ _ => true
  | _ => false

/-- `OutboundJITChannel` (service.rs lines 216-255). -/
structure OutboundJITChannel where
  state : OutboundJITChannelState
  user_channel_id : Nat
  opening_fee_params : OpeningFeeParams
  payment_size_msat : Option Nat
deriving DecidableEq

def OutboundJITChannel.new (payment_size_msat : Option Nat)
    (opening_fee_params : OpeningFeeParams) (user_channel_id : Nat) :
    OutboundJITChannel :=
  ⟨OutboundJITChannelState.new, user_channel_id, opening_fee_params, payment_size_msat⟩

/-- `OutboundJITChannel::htlc_intercepted`: `self.state = new_state` on
success; on error `self.state` keeps the old variant, over the queue as
mutated through the `Arc` (the first component returned by the state-level
function). -/
def OutboundJITChannel.htlc_intercepted (c : OutboundJITChannel)
    (htlc : InterceptedHTLC) :
    OutboundJITChannel × Except ChannelStateError (Option OpenChannelParams) :=
  match c.state.htlc_intercepted c.opening_fee_params c.payment_size_msat htlc with
  | (_, Except.ok (new_state, open_channel_params)) =>
    ({ c with state := new_state }, Except.ok open_channel_params)
  | (self', Except.error e) => ({ c with state := self' }, Except.error e)

/-- `OutboundJITChannel::channel_ready`: on error `self` is untouched. -/
def OutboundJITChannel.channel_ready (c : OutboundJITChannel) :
    OutboundJITChannel × Except ChannelStateError FeePayment :=
  match c.state.channel_ready with
  | Except.ok (new_state, payment) => ({ c with state := new_state }, Except.ok payment)
  | Except.error e => (c, Except.error e)

/-- `OutboundJITChannel::payment_forwarded`. -/
def OutboundJITChannel.payment_forwarded (c : OutboundJITChannel) :
    OutboundJITChannel × Except ChannelStateError (List InterceptedHTLC) :=
  match c.state.payment_forwarded with
  | Except.ok (new_state, payments) => ({ c with state := new_state }, Except.ok payments)
  | Except.error e => (c, Except.error e)

/-- Association-list lookup, modelling `HashMap::get`. -/
def lookupKey {α β : Type} [DecidableEq α] (k : α) : List (α × β) → Option β
  | [] => none
  | (k', v) :: rest => if k' = k then some v else lookupKey k rest

/-- Association-list key removal, modelling `HashMap::remove`. -/
def eraseKey {α β : Type} [DecidableEq α] (k : α) : List (α × β) → List (α × β)
  | [] => []
  | (k', v) :: rest => if k' = k then eraseKey k rest else (k', v) :: eraseKey k rest

/-- Association-list insert-or-replace, modelling `HashMap::insert`. -/
def assocInsert {α β : Type} [DecidableEq α] (k : α) (v : β) (l : List (α × β)) :
    List (α × β) :=
  (k, v) :: eraseKey k l

/-- `BuyRequest` (src/lsps2/msgs.rs) as consumed by service.rs. -/
structure BuyRequest where
  opening_fee_params : OpeningFeeParams
  payment_size_msat : Option Nat
deriving DecidableEq

/-- `GetInfoRequest` (src/lsps2/msgs.rs): an optional token.  Tokens are
opaque; a `Nat` stands in for the string. -/
structure GetInfoRequest where
  token : Option Nat
deriving DecidableEq

/-- `LSPS2Request` (src/lsps2/msgs.rs), the pending-request payloads. -/
inductive LSPS2Request where
  | getInfo (params : GetInfoRequest)
  | buy (params : BuyRequest)
deriving DecidableEq

/-- Modelled from the spec: the LSPS2 JSON-RPC error codes (§6, the
constants live in src/lsps2/msgs.rs which is not among the sources). -/
def UNRECOGNIZED_OR_STALE_TOKEN_CODE : Nat := 200

def INVALID_OPENING_FEE_PARAMS_CODE : Nat := 201

def PAYMENT_SIZE_TOO_SMALL_CODE : Nat := 202

def PAYMENT_SIZE_TOO_LARGE_CODE : Nat := 203

/-- `LSPS2Response` payloads as far as the service emits them.  The promise
HMAC of signed fee-params menus is abstracted away (see
`handle_buy_request`), so a `getInfo` success response carries the menu
entries unchanged. -/
inductive LSPS2Response where
  | getInfoError (code : Nat)
  | getInfo (opening_fee_params_menu : List OpeningFeeParams)
  | buyError (code : Nat)
  | buy (intercept_scid : Nat) (lsp_cltv_expiry_delta : Nat) (client_trusts_lsp : Bool)
deriving DecidableEq

/-- The events of `LSPS2ServiceEvent` emitted by service.rs. -/
inductive Event where
  | getInfoRequested (request_id : RequestId) (counterparty_node_id : PublicKey)
      (token : Option Nat)
  | buyRequested (request_id : RequestId) (counterparty_node_id : PublicKey)
      (opening_fee_params : OpeningFeeParams) (payment_size_msat : Option Nat)
  | openChannel (their_network_key : PublicKey) (amt_to_forward_msat : Nat)
      (opening_fee_msat : Nat) (user_channel_id : Nat) (intercept_scid : Nat)
deriving DecidableEq

/-- The `APIError::APIMisuseError` cases of service.rs, as an enumeration. -/
inductive APIError where
  | noPendingRequest
  | noStateForCounterparty
  | noCounterpartyForScid
  | noChannelForUserChannelId
  | fromStateError (e : ChannelStateError)
deriving DecidableEq

/-- The `Err(LightningError)` cases of `handle_buy_request`. -/
inductive BuyRequestError where
  | paymentSizeBelowMin
  | paymentSizeAboveMax
  | cannotCoverFee
  | overflowComputingOpeningFee
  | invalidOpeningFeeParams
deriving DecidableEq

/-- Calls made into the channel manager (the narrow capability interface of
spec §6).  `fail_intercepted_htlc` and `forward_intercepted_htlc` are
recorded as actions; their own `Result` is modelled as always `Ok`. -/
inductive CMAction where
  | failHtlc (intercept_id : InterceptId)
  | forwardHtlc (intercept_id : InterceptId) (channel_id : ChannelId)
      (peer : PublicKey) (amount_msat : Nat)
deriving DecidableEq

/-- `PeerState` (service.rs lines 257-281), with `HashMap`s as association
lists. -/
structure PeerState where
  outbound_channels_by_intercept_scid : List (Nat × OutboundJITChannel)
  intercept_scid_by_user_channel_id : List (Nat × Nat)
  intercept_scid_by_channel_id : List (ChannelId × Nat)
  pending_requests : List (RequestId × LSPS2Request)
deriving DecidableEq

def PeerState.new : PeerState := ⟨[], [], [], []⟩

/-- The mutable registries of `LSPS2ServiceHandler` (service.rs lines
284-295).  The message queue, event queue and channel manager are external
collaborators: each operation below returns its enqueued responses, events
and channel-manager actions alongside the new registry state. -/
structure ServiceState where
  per_peer_state : List (PublicKey × PeerState)
  peer_by_intercept_scid : List (Nat × PublicKey)
  peer_by_channel_id : List (ChannelId × PublicKey)
deriving DecidableEq

/-- The full observable outcome of one service-handler operation. -/
structure StepResult (ε : Type) where
  state : ServiceState
  responses : List (PublicKey × RequestId × LSPS2Response)
  events : List Event
  actions : List CMAction
  result : Except ε Unit

instance {ε : Type} [DecidableEq ε] : DecidableEq (StepResult ε) := fun a b =>
  match a, b with
  | ⟨s1, r1, e1, a1, x1⟩, ⟨s2, r2, e2, a2, x2⟩ =>
    if h : s1 = s2 ∧ r1 = r2 ∧ e1 = e2 ∧ a1 = a2 ∧ x1 = x2 then
      isTrue (by obtain ⟨h1, h2, h3, h4, h5⟩ := h; rw [h1, h2, h3, h4, h5])
    else
      isFalse (fun hc => by cases hc; exact h ⟨rfl, rfl, rfl, rfl, rfl⟩)

/-- `LSPS2ServiceHandler::invalid_token_provided` (service.rs lines
322-353).  `HashMap::remove` runs before the kind of the removed request is
inspected, so the pending entry is gone on the wrong-kind error path too. -/
def invalid_token_provided (st : ServiceState) (counterparty_node_id : PublicKey)
    (request_id : RequestId) : StepResult APIError :=
  match lookupKey counterparty_node_id st.per_peer_state with
  | none => ⟨st, [], [], [], Except.error APIError.noStateForCounterparty⟩
  | some peer_state =>
    let removed := lookupKey request_id peer_state.pending_requests
    let peer_state' :=
      { peer_state with pending_requests := eraseKey request_id peer_state.pending_requests }
    let st' :=
      { st with per_peer_state := assocInsert counterparty_node_id peer_state' st.per_peer_state }
    match removed with
    | some (LSPS2Request.getInfo _) =>
      ⟨st',
       [(counterparty_node_id, request_id,
         LSPS2Response.getInfoError UNRECOGNIZED_OR_STALE_TOKEN_CODE)],
       [], [], Except.ok ()⟩
    | _ => ⟨st', [], [], [], Except.error APIError.noPendingRequest⟩

/-- `LSPS2ServiceHandler::opening_fee_params_generated` (service.rs lines
360-395).  Promoting each `RawOpeningFeeParams` to a signed
`OpeningFeeParams` is the identity here, the promise being abstracted. -/
def opening_fee_params_generated (st : ServiceState)
    (counterparty_node_id : PublicKey) (request_id : RequestId)
    (opening_fee_params_menu : List OpeningFeeParams) : StepResult APIError :=
  match lookupKey counterparty_node_id st.per_peer_state with
  | none => ⟨st, [], [], [], Except.error APIError.noStateForCounterparty⟩
  | some peer_state =>
    let removed := lookupKey request_id peer_state.pending_requests
    let peer_state' :=
      { peer_state with pending_requests := eraseKey request_id peer_state.pending_requests }
    let st' :=
      { st with per_peer_state := assocInsert counterparty_node_id peer_state' st.per_peer_state }
    match removed with
    | some (LSPS2Request.getInfo _) =>
      ⟨st',
       [(counterparty_node_id, request_id, LSPS2Response.getInfo opening_fee_params_menu)],
       [], [], Except.ok ()⟩
    | _ => ⟨st', [], [], [], Except.error APIError.noPendingRequest⟩

/-- `LSPS2ServiceHandler::invoice_parameters_generated` (service.rs lines
402-452). -/
def invoice_parameters_generated (st : ServiceState)
    (counterparty_node_id : PublicKey) (request_id : RequestId)
    (intercept_scid : Nat) (cltv_expiry_delta : Nat) (client_trusts_lsp : Bool)
    (user_channel_id : Nat) : StepResult APIError :=
  match lookupKey counterparty_node_id st.per_peer_state with
  | none => ⟨st, [], [], [], Except.error APIError.noStateForCounterparty⟩
  | some peer_state =>
    let removed := lookupKey request_id peer_state.pending_requests
    let pending' := eraseKey request_id peer_state.pending_requests
    match removed with
    | some (LSPS2Request.buy buy_request) =>
      let outbound_jit_channel :=
        OutboundJITChannel.new buy_request.payment_size_msat
          buy_request.opening_fee_params user_channel_id
      let peer_state' :=
        { peer_state with
          pending_requests := pending'
          intercept_scid_by_user_channel_id :=
            assocInsert user_channel_id intercept_scid
              peer_state.intercept_scid_by_user_channel_id
          outbound_channels_by_intercept_scid :=
            assocInsert intercept_scid outbound_jit_channel
              peer_state.outbound_channels_by_intercept_scid }
      let st' :=
        { st with
          per_peer_state := assocInsert counterparty_node_id peer_state' st.per_peer_state
          peer_by_intercept_scid :=
            assocInsert intercept_scid counterparty_node_id st.peer_by_intercept_scid }
      ⟨st',
       [(counterparty_node_id, request_id,
         LSPS2Response.buy intercept_scid cltv_expiry_delta client_trusts_lsp)],
       [], [], Except.ok ()⟩
    | _ =>
      let peer_state' := { peer_state with pending_requests := pending' }
      let st' :=
        { st with per_peer_state := assocInsert counterparty_node_id peer_state' st.per_peer_state }
      ⟨st', [], [], [], Except.error APIError.noPendingRequest⟩

/-- `LSPS2ServiceHandler::htlc_intercepted` (service.rs lines 466-520).  On
a state-machine error the HTLC is failed via the channel manager, the
channel is removed from `outbound_channels_by_intercept_scid`, and the
error propagates; `peer_by_intercept_scid` is not touched (the TODO at
line 505). -/
def handler_htlc_intercepted (st : ServiceState) (intercept_scid : Nat)
    (intercept_id : InterceptId) (expected_outbound_amount_msat : Nat)
    (payment_hash : PaymentHash) : StepResult APIError :=
  match lookupKey intercept_scid st.peer_by_intercept_scid with
  | none => ⟨st, [], [], [], Except.ok ()⟩
  | some counterparty_node_id =>
    match lookupKey counterparty_node_id st.per_peer_state with
    | none => ⟨st, [], [], [], Except.error APIError.noCounterpartyForScid⟩
    | some peer_state =>
      match lookupKey intercept_scid peer_state.outbound_channels_by_intercept_scid with
      | none => ⟨st, [], [], [], Except.ok ()⟩
      | some jit_channel =>
        let htlc : InterceptedHTLC :=
          ⟨intercept_id, expected_outbound_amount_msat, payment_hash⟩
        match jit_channel.htlc_intercepted htlc with
        | (channel', Except.ok open_channel_params?) =>
          let peer_state' :=
            { peer_state with
              outbound_channels_by_intercept_scid :=
                assocInsert intercept_scid channel'
                  peer_state.outbound_channels_by_intercept_scid }
          let st' :=
            { st with
              per_peer_state :=
                assocInsert counterparty_node_id peer_state' st.per_peer_state }
          match open_channel_params? with
          | some params =>
            ⟨st', [],
             [Event.openChannel counterparty_node_id params.amt_to_forward_msat
               params.opening_fee_msat jit_channel.user_channel_id intercept_scid],
             [], Except.ok ()⟩
          | none => ⟨st', [], [], [], Except.ok ()⟩
        | (_, Except.error e) =>
          let peer_state' :=
            { peer_state with
              outbound_channels_by_intercept_scid :=
                eraseKey intercept_scid peer_state.outbound_channels_by_intercept_scid }
          let st' :=
            { st with
              per_peer_state :=
                assocInsert counterparty_node_id peer_state' st.per_peer_state }
          ⟨st', [], [], [CMAction.failHtlc intercept_id],
           Except.error (APIError.fromStateError e)⟩

/-- The tail of `LSPS2ServiceHandler::handle_buy_request` (service.rs lines
732-763), shared by both the fixed-payment-size and the variable-invoice
paths: promise validation, then recording the request and emitting the
`BuyRequest` event.  `fee_params_valid` stands for
`is_valid_opening_fee_params(params, secret)` (src/lsps2/utils.rs, not
among the sources): modelled from the spec as an oracle Boolean, true iff
the promise HMAC verifies and `valid_until` is in the future. -/
def buyAfterSizeChecks (st : ServiceState) (request_id : RequestId)
    (counterparty_node_id : PublicKey) (params : BuyRequest)
    (fee_params_valid : Bool) : StepResult BuyRequestError :=
  if fee_params_valid = false then
    ⟨st,
     [(counterparty_node_id, request_id,
       LSPS2Response.buyError INVALID_OPENING_FEE_PARAMS_CODE)],
     [], [], Except.error BuyRequestError.invalidOpeningFeeParams⟩
  else
    let peer_state := (lookupKey counterparty_node_id st.per_peer_state).getD PeerState.new
    let peer_state' :=
      { peer_state with
        pending_requests :=
          assocInsert request_id (LSPS2Request.buy params) peer_state.pending_requests }
    let st' :=
      { st with per_peer_state := assocInsert counterparty_node_id peer_state' st.per_peer_state }
    ⟨st', [],
     [Event.buyRequested request_id counterparty_node_id params.opening_fee_params
       params.payment_size_msat],
     [], Except.ok ()⟩

/-- `LSPS2ServiceHandler::handle_buy_request` (service.rs lines 651-764):
the payment-size validations, in source order, in front of
`buyAfterSizeChecks`. -/
def handle_buy_request (st : ServiceState) (request_id : RequestId)
    (counterparty_node_id : PublicKey) (params : BuyRequest)
    (fee_params_valid : Bool) : StepResult BuyRequestError :=
  let afterSizeChecks : StepResult BuyRequestError :=
    buyAfterSizeChecks st request_id counterparty_node_id params fee_params_valid
  match params.payment_size_msat with
  | some payment_size_msat =>
    if payment_size_msat < params.opening_fee_params.min_payment_size_msat then
      ⟨st,
       [(counterparty_node_id, request_id,
         LSPS2Response.buyError PAYMENT_SIZE_TOO_SMALL_CODE)],
       [], [], Except.error BuyRequestError.paymentSizeBelowMin⟩
    else if payment_size_msat > params.opening_fee_params.max_payment_size_msat then
      ⟨st,
       [(counterparty_node_id, request_id,
         LSPS2Response.buyError PAYMENT_SIZE_TOO_LARGE_CODE)],
       [], [], Except.error BuyRequestError.paymentSizeAboveMax⟩
    else
      match compute_opening_fee payment_size_msat
          params.opening_fee_params.min_fee_msat params.opening_fee_params.proportional with
      | some opening_fee =>
        if opening_fee ≥ payment_size_msat then
          ⟨st,
           [(counterparty_node_id, request_id,
             LSPS2Response.buyError PAYMENT_SIZE_TOO_SMALL_CODE)],
           [], [], Except.error BuyRequestError.cannotCoverFee⟩
        else afterSizeChecks
      | none =>
        ⟨st,
         [(counterparty_node_id, request_id,
           LSPS2Response.buyError PAYMENT_SIZE_TOO_LARGE_CODE)],
         [], [], Except.error BuyRequestError.overflowComputingOpeningFee⟩
  | none => afterSizeChecks

/-! Helper lemmas about the payment queue and the association-list maps. -/

theorem total_after_addToGroups (hash : PaymentHash) (htlc : InterceptedHTLC) :
    ∀ l : List (PaymentHash × List InterceptedHTLC),
      ((addToGroups hash htlc l).map groupSum).sum
        = (l.map groupSum).sum + htlc.expected_outbound_amount_msat := by
  intro l
  induction l with
  | nil => simp [addToGroups, groupSum]
  | cons hd tl ih =>
    obtain ⟨h, g⟩ := hd
    by_cases hh : h = hash
    · simp [addToGroups, hh, groupSum]
      omega
    · simp [addToGroups, hh, ih]
      omega

theorem count_after_addToGroups (hash : PaymentHash) (htlc : InterceptedHTLC) :
    ∀ l : List (PaymentHash × List InterceptedHTLC),
      ((addToGroups hash htlc l).map (fun p => p.2.length)).sum
        = (l.map (fun p => p.2.length)).sum + 1 := by
  intro l
  induction l with
  | nil => simp [addToGroups]
  | cons hd tl ih =>
    obtain ⟨h, g⟩ := hd
    by_cases hh : h = hash
    · simp [addToGroups, hh]
      omega
    · simp [addToGroups, hh, ih]
      omega

theorem mem_addToGroups (hash : PaymentHash) (htlc : InterceptedHTLC) :
    ∀ l : List (PaymentHash × List InterceptedHTLC),
      htlc ∈ (addToGroups hash htlc l).flatMap (fun p => p.2) := by
  intro l
  induction l with
  | nil => simp [addToGroups]
  | cons hd tl ih =>
    obtain ⟨h, g⟩ := hd
    by_cases hh : h = hash
    · simp [addToGroups, hh]
    · simp [addToGroups, hh]
      right
      simpa using ih

theorem add_htlc_total (q : PaymentQueue) (htlc : InterceptedHTLC) :
    (q.add_htlc htlc).1.1 = q.total_msat + htlc.expected_outbound_amount_msat := by
  simp [PaymentQueue.add_htlc, PaymentQueue.total_msat, total_after_addToGroups]

theorem add_htlc_count (q : PaymentQueue) (htlc : InterceptedHTLC) :
    (q.add_htlc htlc).1.2 = q.htlc_count + 1 := by
  simp [PaymentQueue.add_htlc, PaymentQueue.htlc_count, count_after_addToGroups]

theorem add_htlc_mem (q : PaymentQueue) (htlc : InterceptedHTLC) :
    htlc ∈ (q.add_htlc htlc).2.allHtlcs := by
  have := mem_addToGroups htlc.payment_hash htlc q.payments
  simp only [List.mem_flatMap] at this
  simp [PaymentQueue.add_htlc, PaymentQueue.allHtlcs, List.mem_flatMap]
  obtain ⟨p, hp, hmem⟩ := this
  exact ⟨p.1, p.2, hp, hmem⟩

theorem lookupKey_assocInsert_self {α β : Type} [DecidableEq α] (k : α) (v : β)
    (l : List (α × β)) : lookupKey k (assocInsert k v l) = some v := by
  simp [assocInsert, lookupKey]

theorem lookupKey_eraseKey_self {α β : Type} [DecidableEq α] (k : α)
    (l : List (α × β)) : lookupKey k (eraseKey k l) = none := by
  induction l with
  | nil => rfl
  | cons hd tl ih =>
    obtain ⟨k', v⟩ := hd
    by_cases hk : k' = k
    · simp [eraseKey, hk, ih]
    · simp [eraseKey, lookupKey, hk, ih]

theorem popGroups_eq_none (t : Nat) :
    ∀ l : List (PaymentHash × List InterceptedHTLC),
      (∀ p ∈ l, groupSum p ≤ t) → popGroups t l = none := by
  intro l
  induction l with
  | nil => intro _; rfl
  | cons hd tl ih =>
    intro hall
    obtain ⟨h, g⟩ := hd
    have h1 : ¬ t < groupSum (h, g) := not_lt.mpr (hall (h, g) (List.mem_cons_self _ _))
    have h2 := ih (fun p hp => hall p (List.mem_cons_of_mem _ hp))
    unfold popGroups
    rw [if_neg h1, h2]

theorem popGroups_first (t : Nat) (pre : List (PaymentHash × List InterceptedHTLC))
    (g : PaymentHash × List InterceptedHTLC)
    (suf : List (PaymentHash × List InterceptedHTLC))
    (hpre : ∀ p ∈ pre, groupSum p ≤ t) (hgt : t < groupSum g) :
    popGroups t (pre ++ g :: suf) = some (g, pre ++ suf) := by
  induction pre with
  | nil =>
    obtain ⟨gh, gl⟩ := g
    simp only [List.nil_append]
    unfold popGroups
    rw [if_pos hgt]
  | cons hd tl ih =>
    obtain ⟨hh, hg⟩ := hd
    have h1 : ¬ t < groupSum (hh, hg) := not_lt.mpr (hpre _ (List.mem_cons_self _ _))
    have h2 := ih (fun p hp => hpre p (List.mem_cons_of_mem _ hp))
    simp only [List.cons_append]
    unfold popGroups
    rw [if_neg h1, h2]

/-! Sanity check: the module's unit test `test_calculate_amount_to_forward`
(amounts `[2, 6, 2]`, fee 5) is reproduced by the embedding. -/

theorem calc_forward_matches_unit_test :
    calculate_amount_to_forward_per_htlc
        [⟨0, 2, 0⟩, ⟨1, 6, 0⟩, ⟨2, 2, 0⟩] 5 = [(0, 1), (1, 3), (2, 1)] := by
  decide

/-- C7: for every HTLC list and every `total_fee_msat` strictly greater
than the sum of the HTLCs' `expected_outbound_amount_msat`,
`calculate_amount_to_forward_per_htlc` returns the empty list.  (The `u64`
sum cannot wrap here: a fee above the mathematical sum forces that sum
below 2^64.) -/
theorem calc_forward_empty_of_fee_gt_total (htlcs : List InterceptedHTLC)
    (total_fee_msat : Nat)
    (h : (htlcs.map (fun x => x.expected_outbound_amount_msat)).sum < total_fee_msat) :
    calculate_amount_to_forward_per_htlc htlcs total_fee_msat = [] := by
  simp only [calculate_amount_to_forward_per_htlc]
  rw [if_pos]
  exact lt_of_le_of_lt (Nat.mod_le _ _) h

/-- Witness for C7 at amounts `[1]` and fee 2. -/
theorem calc_forward_empty_of_fee_gt_total_witness :
    calculate_amount_to_forward_per_htlc [⟨0, 1, 0⟩] 2 = [] :=
  calc_forward_empty_of_fee_gt_total [⟨0, 1, 0⟩] 2 (by decide)

/-- C1: evaluation at the failing input.  For amounts `[2, 2, 1]` and
`total_fee_msat = 4 ≤ 5` the function forwards `[1, 1, 0]`: the last
HTLC's fee share is `min(2, 0, 1) = 0` plus the residual 2, which exceeds
its amount 1, so only 1 msat of that share can actually be skimmed and the
collected fee is `(2-1) + (2-1) + (1-0) = 3 ≠ 4`, contradicting the exact
fee-recovery property the module's own property test asserts. -/
theorem calc_forward_fee_shortfall_on_2_2_1 :
    calculate_amount_to_forward_per_htlc
        [⟨0, 2, 0⟩, ⟨1, 2, 0⟩, ⟨2, 1, 0⟩] 4 = [(0, 1), (1, 1), (2, 0)]
    ∧ 4 ≤ 2 + 2 + 1
    ∧ (2 - 1) + ((2 - 1) + (1 - 0)) ≠ 4 := by
  decide

/-- C3: from `PendingChannelOpen`, `channel_ready` pops the first queued
group (in insertion order) whose sum strictly exceeds `opening_fee_msat`,
moves to `PendingPaymentForward` over the shortened queue, and returns the
group's HTLCs with `opening_fee_msat`; if every group's sum is at most the
fee it returns an error. -/
theorem channel_ready_pops_first_sufficient_group (q : PaymentQueue)
    (opening_fee_msat : Nat) :
    ((∀ p ∈ q.payments, groupSum p ≤ opening_fee_msat) →
      (OutboundJITChannelState.pendingChannelOpen q opening_fee_msat).channel_ready =
        Except.error ChannelStateError.noForwardablePayment)
    ∧ (∀ pre g suf, q.payments = pre ++ g :: suf →
        (∀ p ∈ pre, groupSum p ≤ opening_fee_msat) →
        opening_fee_msat < groupSum g →
        (OutboundJITChannelState.pendingChannelOpen q opening_fee_msat).channel_ready =
          Except.ok
            (OutboundJITChannelState.pendingPaymentForward ⟨pre ++ suf⟩ opening_fee_msat,
             ⟨g.2, opening_fee_msat⟩)) := by
  constructor
  · intro hall
    simp only [OutboundJITChannelState.channel_ready,
      PaymentQueue.pop_greater_than_msat]
    rw [popGroups_eq_none opening_fee_msat q.payments hall]
  · intro pre g suf he hpre hgt
    obtain ⟨gh, gl⟩ := g
    simp only [OutboundJITChannelState.channel_ready,
      PaymentQueue.pop_greater_than_msat, he]
    rw [popGroups_first opening_fee_msat pre (gh, gl) suf hpre hgt]

/-- Witness for C3: queue `[(1, [1 msat]), (2, [5 msat])]`, fee 3 pops the
second group. -/
theorem channel_ready_pops_first_sufficient_group_witness :
    (OutboundJITChannelState.pendingChannelOpen
        ⟨[(1, [⟨0, 1, 1⟩]), (2, [⟨1, 5, 2⟩])]⟩ 3).channel_ready =
      Except.ok
        (OutboundJITChannelState.pendingPaymentForward ⟨[(1, [⟨0, 1, 1⟩])]⟩ 3,
         ⟨[⟨1, 5, 2⟩], 3⟩) := by
  have h := (channel_ready_pops_first_sufficient_group
      ⟨[(1, [⟨0, 1, 1⟩]), (2, [⟨1, 5, 2⟩])]⟩ 3).2
      [(1, [⟨0, 1, 1⟩])] (2, [⟨1, 5, 2⟩]) [] rfl (by decide) (by decide)
  simpa using h

/-- C5: `channel_ready` on a channel whose state is not
`PendingChannelOpen` returns an error and leaves the channel exactly as it
was. -/
theorem channel_ready_wrong_state_unchanged (c : OutboundJITChannel)
    (h : c.state.isPendingChannelOpen = false) :
    (c.channel_ready).1 = c ∧
      (c.channel_ready).2 = Except.error ChannelStateError.wrongStateChannelReady := by
  obtain ⟨st, ucid, params, ps⟩ := c
  cases st with
  | pendingChannelOpen q fee => simp [OutboundJITChannelState.isPendingChannelOpen] at h
  | pendingInitialPayment q =>
    simp [OutboundJITChannel.channel_ready, OutboundJITChannelState.channel_ready]
  | pendingPaymentForward q fee =>
    simp [OutboundJITChannel.channel_ready, OutboundJITChannelState.channel_ready]
  | paymentForwarded =>
    simp [OutboundJITChannel.channel_ready, OutboundJITChannelState.channel_ready]

/-- Witness for C5 at a channel resting in the terminal state. -/
theorem channel_ready_wrong_state_unchanged_witness :
    ((⟨OutboundJITChannelState.paymentForwarded, 9, ⟨1, 0, 1, 100⟩, none⟩ :
        OutboundJITChannel).channel_ready).1 =
      ⟨OutboundJITChannelState.paymentForwarded, 9, ⟨1, 0, 1, 100⟩, none⟩ ∧
    ((⟨OutboundJITChannelState.paymentForwarded, 9, ⟨1, 0, 1, 100⟩, none⟩ :
        OutboundJITChannel).channel_ready).2 =
      Except.error ChannelStateError.wrongStateChannelReady :=
  channel_ready_wrong_state_unchanged
    ⟨OutboundJITChannelState.paymentForwarded, 9, ⟨1, 0, 1, 100⟩, none⟩ (by decide)

/-- C6: with `payment_size_msat` absent (no-MPP+var-invoice mode), an
`htlc_intercepted` on a `PendingInitialPayment` channel whose queue is
already non-empty — i.e. any call after the first, the first call being the
only way HTLCs enter the queue — returns the multiple-HTLCs error. -/
theorem second_htlc_no_mpp_errors (q : PaymentQueue) (params : OpeningFeeParams)
    (htlc : InterceptedHTLC) (h : 1 ≤ q.htlc_count) :
    ((OutboundJITChannelState.pendingInitialPayment q).htlc_intercepted
        params none htlc).2 =
      Except.error ChannelStateError.multipleHtlcsInNoMppMode := by
  have hne : (q.add_htlc htlc).1.2 ≠ 1 := by
    rw [add_htlc_count]
    omega
  have heq : ((OutboundJITChannelState.pendingInitialPayment q).htlc_intercepted
      params none htlc).2 =
      interceptOutcome params none (q.add_htlc htlc).1.1 (q.add_htlc htlc).1.2
        (q.add_htlc htlc).2 := rfl
  rw [heq]
  unfold interceptOutcome
  rw [if_pos hne]

/-- Witness for C6: one queued HTLC, a second arrives. -/
theorem second_htlc_no_mpp_errors_witness :
    ((OutboundJITChannelState.pendingInitialPayment ⟨[(5, [⟨9, 1, 5⟩])]⟩).htlc_intercepted
        ⟨1, 0, 1, 100⟩ none ⟨1, 7, 5⟩).2 =
      Except.error ChannelStateError.multipleHtlcsInNoMppMode :=
  second_htlc_no_mpp_errors ⟨[(5, [⟨9, 1, 5⟩])]⟩ ⟨1, 0, 1, 100⟩ ⟨1, 7, 5⟩ (by decide)

/-- C10: in `PendingInitialPayment` the HTLC is pushed into the shared
queue before any validation, so whenever the call errors, the state left
behind in `self` is `PendingInitialPayment` over the extended queue and the
rejected HTLC sits in it. -/
theorem rejected_htlc_remains_queued (q : PaymentQueue) (params : OpeningFeeParams)
    (payment_size_msat : Option Nat) (htlc : InterceptedHTLC) (e : ChannelStateError)
    (h : ((OutboundJITChannelState.pendingInitialPayment q).htlc_intercepted
        params payment_size_msat htlc).2 = Except.error e) :
    ((OutboundJITChannelState.pendingInitialPayment q).htlc_intercepted
        params payment_size_msat htlc).1 =
      OutboundJITChannelState.pendingInitialPayment (q.add_htlc htlc).2
    ∧ htlc ∈ (q.add_htlc htlc).2.allHtlcs :=
  ⟨rfl, add_htlc_mem q htlc⟩

/-- Witness for C10: a below-minimum single HTLC is rejected yet queued. -/
theorem rejected_htlc_remains_queued_witness :
    ((OutboundJITChannelState.pendingInitialPayment ⟨[]⟩).htlc_intercepted
        ⟨1, 0, 10, 100⟩ (some 5) ⟨0, 5, 0⟩).1 =
      OutboundJITChannelState.pendingInitialPayment
        ((⟨[]⟩ : PaymentQueue).add_htlc ⟨0, 5, 0⟩).2
    ∧ (⟨0, 5, 0⟩ : InterceptedHTLC) ∈
        ((⟨[]⟩ : PaymentQueue).add_htlc ⟨0, 5, 0⟩).2.allHtlcs :=
  rejected_htlc_remains_queued ⟨[]⟩ ⟨1, 0, 10, 100⟩ (some 5) ⟨0, 5, 0⟩
    ChannelStateError.paymentSizeViolatesLimits (by decide)

/-- C2 counterexample: the claim as stated ignores the payment-size bounds
check.  With fee params `min_fee = 1, proportional = 0,
min_payment_size = 10, max_payment_size = 100` and `payment_size_msat = 5`:
the single HTLC's amount 5 is ≥ 5, the opening fee computes to 1, and
`5 - 1 > 0`, yet the call errors (no transition to `PendingChannelOpen`,
no open-channel payload) because `5 < min_payment_size_msat`. -/
theorem htlc_intercepted_bounds_preempt_open :
    (5 : Nat) ≤ (⟨0, 5, 0⟩ : InterceptedHTLC).expected_outbound_amount_msat
    ∧ compute_opening_fee 5 1 0 = some 1
    ∧ (0 : Nat) < 5 - 1
    ∧ ((OutboundJITChannelState.pendingInitialPayment ⟨[]⟩).htlc_intercepted
        ⟨1, 0, 10, 100⟩ (some 5) ⟨0, 5, 0⟩).2 =
      Except.error ChannelStateError.paymentSizeViolatesLimits := by
  decide

/-- C2 (amended): from `PendingInitialPayment`, when the buy request fixed
`payment_size_msat = ps` with `ps` inside the fee params' payment-size
bounds, the opening-fee computation succeeds with `fee < ps`, and the
intercepted HTLC's amount is at least `ps`, the call returns
`PendingChannelOpen` (over the queue extended with the HTLC) and an
open-channel payload carrying `fee` and `amt_to_forward_msat = ps - fee`. -/
theorem htlc_intercepted_triggers_open (q : PaymentQueue)
    (params : OpeningFeeParams) (ps fee : Nat) (htlc : InterceptedHTLC)
    (hmin : params.min_payment_size_msat ≤ ps)
    (hmax : ps ≤ params.max_payment_size_msat)
    (hfee : compute_opening_fee ps params.min_fee_msat params.proportional = some fee)
    (hlt : fee < ps)
    (hamt : ps ≤ htlc.expected_outbound_amount_msat) :
    (OutboundJITChannelState.pendingInitialPayment q).htlc_intercepted
        params (some ps) htlc =
      (OutboundJITChannelState.pendingInitialPayment (q.add_htlc htlc).2,
       Except.ok
         (OutboundJITChannelState.pendingChannelOpen (q.add_htlc htlc).2 fee,
          some ⟨fee, ps - fee⟩)) := by
  have hbounds : ¬ (ps < params.min_payment_size_msat
      ∨ ps > params.max_payment_size_msat) := by omega
  have htot : (q.add_htlc htlc).1.1 ≥ ps ∧ ps - fee > 0 := by
    rw [add_htlc_total]
    omega
  have heq : (OutboundJITChannelState.pendingInitialPayment q).htlc_intercepted
      params (some ps) htlc =
      (OutboundJITChannelState.pendingInitialPayment (q.add_htlc htlc).2,
       interceptDecide params (q.add_htlc htlc).1.1 (q.add_htlc htlc).2 ps true) := rfl
  rw [heq]
  have hd : interceptDecide params (q.add_htlc htlc).1.1 (q.add_htlc htlc).2 ps true =
      Except.ok
        (OutboundJITChannelState.pendingChannelOpen (q.add_htlc htlc).2 fee,
         some ⟨fee, ps - fee⟩) := by
    unfold interceptDecide
    rw [if_neg hbounds, hfee]
    dsimp only
    rw [if_pos htot]
  rw [hd]

/-- Witness for C2 (amended): empty queue, `ps = 10`, fee params
`⟨1, 0, 1, 100⟩` give fee 1, HTLC of 10 msat triggers the open. -/
theorem htlc_intercepted_triggers_open_witness :
    (OutboundJITChannelState.pendingInitialPayment ⟨[]⟩).htlc_intercepted
        ⟨1, 0, 1, 100⟩ (some 10) ⟨0, 10, 0⟩ =
      (OutboundJITChannelState.pendingInitialPayment
         ((⟨[]⟩ : PaymentQueue).add_htlc ⟨0, 10, 0⟩).2,
       Except.ok
         (OutboundJITChannelState.pendingChannelOpen
            ((⟨[]⟩ : PaymentQueue).add_htlc ⟨0, 10, 0⟩).2 1,
          some ⟨1, 10 - 1⟩)) :=
  htlc_intercepted_triggers_open ⟨[]⟩ ⟨1, 0, 1, 100⟩ 10 1 ⟨0, 10, 0⟩
    (by decide) (by decide) (by decide) (by decide) (by decide)

/-- Reduction of `handle_buy_request` when the request carries a payment
size: the validation cascade in source order. -/
theorem handle_buy_request_some_reduction (st : ServiceState)
    (request_id : RequestId) (peer : PublicKey) (params : BuyRequest)
    (valid : Bool) (ps : Nat) (hps : params.payment_size_msat = some ps) :
    handle_buy_request st request_id peer params valid =
      if ps < params.opening_fee_params.min_payment_size_msat then
        ⟨st, [(peer, request_id, LSPS2Response.buyError PAYMENT_SIZE_TOO_SMALL_CODE)],
         [], [], Except.error BuyRequestError.paymentSizeBelowMin⟩
      else if ps > params.opening_fee_params.max_payment_size_msat then
        ⟨st, [(peer, request_id, LSPS2Response.buyError PAYMENT_SIZE_TOO_LARGE_CODE)],
         [], [], Except.error BuyRequestError.paymentSizeAboveMax⟩
      else
        match compute_opening_fee ps params.opening_fee_params.min_fee_msat
            params.opening_fee_params.proportional with
        | some opening_fee =>
          if opening_fee ≥ ps then
            ⟨st, [(peer, request_id, LSPS2Response.buyError PAYMENT_SIZE_TOO_SMALL_CODE)],
             [], [], Except.error BuyRequestError.cannotCoverFee⟩
          else buyAfterSizeChecks st request_id peer params valid
        | none =>
          ⟨st, [(peer, request_id, LSPS2Response.buyError PAYMENT_SIZE_TOO_LARGE_CODE)],
           [], [], Except.error BuyRequestError.overflowComputingOpeningFee⟩ := by
  unfold handle_buy_request
  rw [hps]

/-- C4: for a buy request carrying `payment_size_msat = ps` the handler
validates in source order with these codes — 202 below the minimum, 203
above the maximum, 203 on opening-fee overflow, 202 when the fee is ≥ the
payment size, and only after all of those 201 on an invalid promise /
expired `valid_until`; a request passing every check is recorded under its
request id in the peer's `pending_requests` and a `BuyRequest` event is
emitted. -/
theorem handle_buy_request_order_and_codes (st : ServiceState)
    (request_id : RequestId) (peer : PublicKey) (params : BuyRequest)
    (valid : Bool) (ps : Nat) (hps : params.payment_size_msat = some ps) :
    (ps < params.opening_fee_params.min_payment_size_msat →
      handle_buy_request st request_id peer params valid =
        ⟨st, [(peer, request_id, LSPS2Response.buyError PAYMENT_SIZE_TOO_SMALL_CODE)],
         [], [], Except.error BuyRequestError.paymentSizeBelowMin⟩)
    ∧ (params.opening_fee_params.min_payment_size_msat ≤ ps →
        params.opening_fee_params.max_payment_size_msat < ps →
      handle_buy_request st request_id peer params valid =
        ⟨st, [(peer, request_id, LSPS2Response.buyError PAYMENT_SIZE_TOO_LARGE_CODE)],
         [], [], Except.error BuyRequestError.paymentSizeAboveMax⟩)
    ∧ (params.opening_fee_params.min_payment_size_msat ≤ ps →
        ps ≤ params.opening_fee_params.max_payment_size_msat →
        compute_opening_fee ps params.opening_fee_params.min_fee_msat
          params.opening_fee_params.proportional = none →
      handle_buy_request st request_id peer params valid =
        ⟨st, [(peer, request_id, LSPS2Response.buyError PAYMENT_SIZE_TOO_LARGE_CODE)],
         [], [], Except.error BuyRequestError.overflowComputingOpeningFee⟩)
    ∧ (∀ fee, params.opening_fee_params.min_payment_size_msat ≤ ps →
        ps ≤ params.opening_fee_params.max_payment_size_msat →
        compute_opening_fee ps params.opening_fee_params.min_fee_msat
          params.opening_fee_params.proportional = some fee →
        ps ≤ fee →
      handle_buy_request st request_id peer params valid =
        ⟨st, [(peer, request_id, LSPS2Response.buyError PAYMENT_SIZE_TOO_SMALL_CODE)],
         [], [], Except.error BuyRequestError.cannotCoverFee⟩)
    ∧ (∀ fee, params.opening_fee_params.min_payment_size_msat ≤ ps →
        ps ≤ params.opening_fee_params.max_payment_size_msat →
        compute_opening_fee ps params.opening_fee_params.min_fee_msat
          params.opening_fee_params.proportional = some fee →
        fee < ps → valid = false →
      handle_buy_request st request_id peer params valid =
        ⟨st, [(peer, request_id, LSPS2Response.buyError INVALID_OPENING_FEE_PARAMS_CODE)],
         [], [], Except.error BuyRequestError.invalidOpeningFeeParams⟩)
    ∧ (∀ fee, params.opening_fee_params.min_payment_size_msat ≤ ps →
        ps ≤ params.opening_fee_params.max_payment_size_msat →
        compute_opening_fee ps params.opening_fee_params.min_fee_msat
          params.opening_fee_params.proportional = some fee →
        fee < ps → valid = true →
      (handle_buy_request st request_id peer params valid).result = Except.ok ()
      ∧ (handle_buy_request st request_id peer params valid).events =
          [Event.buyRequested request_id peer params.opening_fee_params
            params.payment_size_msat]
      ∧ ∃ ps', lookupKey peer
            (handle_buy_request st request_id peer params valid).state.per_peer_state =
              some ps'
          ∧ lookupKey request_id ps'.pending_requests =
              some (LSPS2Request.buy params)) := by
  have red := handle_buy_request_some_reduction st request_id peer params valid ps hps
  refine ⟨?_, ?_, ?_, ?_, ?_, ?_⟩
  · intro h1
    rw [red, if_pos h1]
  · intro h1 h2
    rw [red, if_neg (not_lt.mpr h1), if_pos h2]
  · intro h1 h2 h3
    rw [red, if_neg (not_lt.mpr h1), if_neg (not_lt.mpr h2), h3]
  · intro fee h1 h2 h3 h4
    rw [red, if_neg (not_lt.mpr h1), if_neg (not_lt.mpr h2), h3]
    dsimp only
    rw [if_pos h4]
  · intro fee h1 h2 h3 h4 hval
    rw [red, if_neg (not_lt.mpr h1), if_neg (not_lt.mpr h2), h3]
    dsimp only
    rw [if_neg (not_le.mpr h4)]
    subst hval
    unfold buyAfterSizeChecks
    rw [if_pos rfl]
  · intro fee h1 h2 h3 h4 hval
    rw [red, if_neg (not_lt.mpr h1), if_neg (not_lt.mpr h2), h3]
    dsimp only
    rw [if_neg (not_le.mpr h4)]
    subst hval
    unfold buyAfterSizeChecks
    rw [if_neg (by simp)]
    dsimp only
    refine ⟨rfl, rfl, ?_⟩
    exact ⟨_, lookupKey_assocInsert_self _ _ _, lookupKey_assocInsert_self _ _ _⟩

/-- Witness for C4: a fully valid buy request (`ps = 10`, fee params
`⟨1, 0, 1, 100⟩`, fee 1, promise valid) is accepted, recorded, and a
`BuyRequest` event is emitted. -/
theorem handle_buy_request_order_and_codes_witness :
    (handle_buy_request ⟨[], [], []⟩ 3 7 ⟨⟨1, 0, 1, 100⟩, some 10⟩ true).result =
      Except.ok ()
    ∧ (handle_buy_request ⟨[], [], []⟩ 3 7 ⟨⟨1, 0, 1, 100⟩, some 10⟩ true).events =
        [Event.buyRequested 3 7 ⟨1, 0, 1, 100⟩ (some 10)]
    ∧ ∃ ps', lookupKey 7
          (handle_buy_request ⟨[], [], []⟩ 3 7
            ⟨⟨1, 0, 1, 100⟩, some 10⟩ true).state.per_peer_state = some ps'
        ∧ lookupKey 3 ps'.pending_requests =
            some (LSPS2Request.buy ⟨⟨1, 0, 1, 100⟩, some 10⟩) :=
  (handle_buy_request_order_and_codes ⟨[], [], []⟩ 3 7 ⟨⟨1, 0, 1, 100⟩, some 10⟩
      true 10 rfl).2.2.2.2.2 1 (by decide) (by decide) (by decide) (by decide) rfl

/-- C8: when the handler's `htlc_intercepted` finds a registered SCID, the
peer's state, and the JIT channel, and the state machine rejects the HTLC,
the handler fails exactly that intercept id via the channel manager, drops
the channel from `outbound_channels_by_intercept_scid`, propagates the
error — and `peer_by_intercept_scid` is left untouched. -/
theorem handler_htlc_intercepted_error_path (st : ServiceState) (intercept_scid : Nat)
    (intercept_id : InterceptId) (amt : Nat) (payment_hash : PaymentHash)
    (peer : PublicKey) (ps : PeerState) (chan : OutboundJITChannel)
    (e : ChannelStateError)
    (h1 : lookupKey intercept_scid st.peer_by_intercept_scid = some peer)
    (h2 : lookupKey peer st.per_peer_state = some ps)
    (h3 : lookupKey intercept_scid ps.outbound_channels_by_intercept_scid = some chan)
    (h4 : (chan.htlc_intercepted ⟨intercept_id, amt, payment_hash⟩).2 = Except.error e) :
    handler_htlc_intercepted st intercept_scid intercept_id amt payment_hash =
      ⟨{ st with
           per_peer_state := assocInsert peer
             ({ ps with
                  outbound_channels_by_intercept_scid :=
                    eraseKey intercept_scid ps.outbound_channels_by_intercept_scid })
             st.per_peer_state },
       [], [], [CMAction.failHtlc intercept_id],
       Except.error (APIError.fromStateError e)⟩
    ∧ (handler_htlc_intercepted st intercept_scid intercept_id amt
        payment_hash).state.peer_by_intercept_scid = st.peer_by_intercept_scid := by
  have hpair : chan.htlc_intercepted ⟨intercept_id, amt, payment_hash⟩ =
      ((chan.htlc_intercepted ⟨intercept_id, amt, payment_hash⟩).1, Except.error e) := by
    rw [← h4]
  have hmain : handler_htlc_intercepted st intercept_scid intercept_id amt payment_hash =
      ⟨{ st with
           per_peer_state := assocInsert peer
             ({ ps with
                  outbound_channels_by_intercept_scid :=
                    eraseKey intercept_scid ps.outbound_channels_by_intercept_scid })
             st.per_peer_state },
       [], [], [CMAction.failHtlc intercept_id],
       Except.error (APIError.fromStateError e)⟩ := by
    unfold handler_htlc_intercepted
    rw [h1]
    dsimp only
    rw [h2]
    dsimp only
    rw [h3]
    dsimp only
    rw [hpair]
  refine ⟨hmain, ?_⟩
  rw [hmain]

/-- Witness for C8: SCID 42 registered to peer 7, channel resting in the
terminal state, an HTLC arrives and the state machine rejects it. -/
theorem handler_htlc_intercepted_error_path_witness :
    handler_htlc_intercepted
        ⟨[(7, ⟨[(42, ⟨OutboundJITChannelState.paymentForwarded, 9, ⟨1, 0, 1, 100⟩, none⟩)],
            [], [], []⟩)], [(42, 7)], []⟩ 42 11 1000 5 =
      ⟨⟨[(7, ⟨[], [], [], []⟩)], [(42, 7)], []⟩, [], [],
       [CMAction.failHtlc 11],
       Except.error (APIError.fromStateError ChannelStateError.wrongStateHtlcIntercepted)⟩ := by
  have h := (handler_htlc_intercepted_error_path
      ⟨[(7, ⟨[(42, ⟨OutboundJITChannelState.paymentForwarded, 9, ⟨1, 0, 1, 100⟩, none⟩)],
          [], [], []⟩)], [(42, 7)], []⟩ 42 11 1000 5 7
      ⟨[(42, ⟨OutboundJITChannelState.paymentForwarded, 9, ⟨1, 0, 1, 100⟩, none⟩)],
        [], [], []⟩
      ⟨OutboundJITChannelState.paymentForwarded, 9, ⟨1, 0, 1, 100⟩, none⟩
      ChannelStateError.wrongStateHtlcIntercepted
      (by decide) (by decide) (by decide) (by decide)).1
  rw [h]
  decide

/-- C9: for each of the three operator responses, a pending request found
under the request id but of the wrong kind yields `APIMisuseError` — yet
the pending request has already been removed from `pending_requests` (the
removal happens before the kind is inspected), so peer state is not left
unchanged on this error. -/
theorem operator_response_wrong_kind_still_removes (st : ServiceState)
    (peer : PublicKey) (request_id : RequestId) (ps : PeerState)
    (menu : List OpeningFeeParams) (intercept_scid cltv user_channel_id : Nat)
    (trusts : Bool)
    (hpeer : lookupKey peer st.per_peer_state = some ps) :
    (∀ b, lookupKey request_id ps.pending_requests = some (LSPS2Request.buy b) →
      (invalid_token_provided st peer request_id).result =
          Except.error APIError.noPendingRequest
      ∧ lookupKey peer (invalid_token_provided st peer request_id).state.per_peer_state =
          some ({ ps with pending_requests := eraseKey request_id ps.pending_requests })
      ∧ lookupKey request_id (eraseKey request_id ps.pending_requests) = none)
    ∧ (∀ b, lookupKey request_id ps.pending_requests = some (LSPS2Request.buy b) →
      (opening_fee_params_generated st peer request_id menu).result =
          Except.error APIError.noPendingRequest
      ∧ lookupKey peer
          (opening_fee_params_generated st peer request_id menu).state.per_peer_state =
          some ({ ps with pending_requests := eraseKey request_id ps.pending_requests }))
    ∧ (∀ t, lookupKey request_id ps.pending_requests = some (LSPS2Request.getInfo t) →
      (invoice_parameters_generated st peer request_id intercept_scid cltv trusts
          user_channel_id).result = Except.error APIError.noPendingRequest
      ∧ lookupKey peer
          (invoice_parameters_generated st peer request_id intercept_scid cltv trusts
            user_channel_id).state.per_peer_state =
          some ({ ps with pending_requests := eraseKey request_id ps.pending_requests })) := by
  refine ⟨?_, ?_, ?_⟩
  · intro b hb
    unfold invalid_token_provided
    rw [hpeer]
    dsimp only
    rw [hb]
    dsimp only
    exact ⟨rfl, lookupKey_assocInsert_self _ _ _, lookupKey_eraseKey_self _ _⟩
  · intro b hb
    unfold opening_fee_params_generated
    rw [hpeer]
    dsimp only
    rw [hb]
    dsimp only
    exact ⟨rfl, lookupKey_assocInsert_self _ _ _⟩
  · intro t hb
    unfold invoice_parameters_generated
    rw [hpeer]
    dsimp only
    rw [hb]
    dsimp only
    exact ⟨rfl, lookupKey_assocInsert_self _ _ _⟩

/-- Witness for C9: peer 7 has a pending `Buy` under request id 1;
`invalid_token_provided` (which expects `GetInfo`) errors yet removes it. -/
theorem operator_response_wrong_kind_still_removes_witness :
    (invalid_token_provided
        ⟨[(7, ⟨[], [], [], [(1, LSPS2Request.buy ⟨⟨1, 0, 1, 100⟩, none⟩)]⟩)], [], []⟩
        7 1).result = Except.error APIError.noPendingRequest
    ∧ lookupKey 7 (invalid_token_provided
        ⟨[(7, ⟨[], [], [], [(1, LSPS2Request.buy ⟨⟨1, 0, 1, 100⟩, none⟩)]⟩)], [], []⟩
        7 1).state.per_peer_state =
        some ⟨[], [], [],
          eraseKey 1 [(1, LSPS2Request.buy ⟨⟨1, 0, 1, 100⟩, none⟩)]⟩
    ∧ lookupKey 1 (eraseKey 1 [(1, LSPS2Request.buy ⟨⟨1, 0, 1, 100⟩, none⟩)]) =
        (none : Option LSPS2Request) :=
  (operator_response_wrong_kind_still_removes
      ⟨[(7, ⟨[], [], [], [(1, LSPS2Request.buy ⟨⟨1, 0, 1, 100⟩, none⟩)]⟩)], [], []⟩
      7 1 ⟨[], [], [], [(1, LSPS2Request.buy ⟨⟨1, 0, 1, 100⟩, none⟩)]⟩
      [] 0 0 0 false (by decide)).1 ⟨⟨1, 0, 1, 100⟩, none⟩ (by decide)

end LSPS2
